import Mathlib

/-!
Verification development for the M17 receive-side demodulator and the HDLC
frame-pool wrappers of the TNC firmware.

The demodulator state machine and the per-symbol conditioning step are
embedded as pure Lean functions over exact rationals; the external,
stateful collaborator units (deviation corrector, frequency corrector,
phase estimator, symbol/EVM slicer, carrier detector, sync correlators,
bit framer, frame decoder) are consumed as opaque input oracles, matching
the spec's external-interface contracts.
-/

namespace M17

/-- The four states of the synchronization state machine,
from `enum class DemodState` in the M17Demodulator source. -/
inductive DemodState
  | UNLOCKED
  | SYNC
  | FR_SYNC
  | FRAMING
  deriving DecidableEq, Repr

/-- The mutable per-instance state of `M17Demodulator`.  ADC samples
(`q15_t`) are embedded as integers and the floating-point scalars as exact
rationals.  The external stateful units are not part of this state; their
per-step outputs are supplied as oracle inputs to the step functions. -/
structure M17Demodulator where
  gain : ℚ
  samples : ℤ × ℤ × ℤ
  f_samples : ℚ × ℚ × ℚ
  buffer : List ℤ
  t : ℚ
  dt : ℚ
  ideal_dt : ℚ
  sample_now : Bool
  estimated_deviation : ℚ
  estimated_frequency_offset : ℚ
  evm_average : ℚ
  decoding : Bool
  demodState : DemodState
  locked_ : Bool
  passall_ : Bool
  ber : ℤ
  sync_count : ℤ
  deriving DecidableEq, Repr

/-- The member-initializer values of `M17Demodulator`.  The `samples`,
`f_samples` and `buffer` arrays are default-initialized in the source;
they are taken as zero here (no claim depends on their initial content). -/
def initState : M17Demodulator where
  gain := 5/1000
  samples := (0, 0, 0)
  f_samples := (0, 0, 0)
  buffer := []
  t := 0
  dt := 1/10
  ideal_dt := 1/10
  sample_now := false
  estimated_deviation := 1
  estimated_frequency_offset := 0
  evm_average := 0
  decoding := false
  demodState := DemodState.UNLOCKED
  locked_ := false
  passall_ := false
  ber := -1
  sync_count := 0

/-- The tuple `demod_result_t`:
(corrected center sample, phase estimate, symbol, evm). -/
def DemodResult := ℚ × ℚ × ℤ × ℚ

/-- Per-step outputs of the external stateful units consumed by `frame`:
the carrier detector `dcd`, the two sync correlators, the bit framer and
the frame decoder.  `framer_out = some data` models the framer returning a
nonzero length with `data` the emitted soft bits; `none` models length 0
(still accumulating).  `decoder_result` is the `IoFrame*` the decoder
writes through its reference parameter (`none` = nullptr). -/
structure FrameInputs where
  locked : Bool
  evma : ℚ
  sync1_match : Bool
  sync4_match : Bool
  framer_out : Option (List ℤ)
  decoder_valid : Bool
  decoder_result : Option ℕ
  decoder_ber : ℤ
  deriving DecidableEq, Repr

/-- Body shared by the `SYNC` case and the `UNLOCKED` fall-through into it:
carrier drop returns to `UNLOCKED`, a short-correlator match advances to
`FRAMING`, otherwise the state is left as is. -/
def syncBody (carrier sync1m : Bool) (s : M17Demodulator) : M17Demodulator :=
  if !carrier then { s with demodState := DemodState.UNLOCKED }
  else if sync1m then { s with demodState := DemodState.FRAMING }
  else s

/-- One step of `M17Demodulator::frame`.  Returns the updated demodulator
state, the `IoFrame*` reference parameter after the call (`none` =
nullptr), and the list of frames passed to `hdlc::release` during the
step.  The INFO/WARN logging of the source is diagnostics only and is not
modelled. -/
def frame (din : DemodResult) (inp : FrameInputs) (result : Option ℕ)
    (s0 : M17Demodulator) : M17Demodulator × Option ℕ × List ℕ :=
  let carrier := inp.locked
  let s := { s0 with gain := if carrier then 2/1000 else 1/100 }
  match s0.demodState with
  | DemodState.UNLOCKED =>
      if !carrier then
        ({ s with locked_ := false }, result, [])
      else
        -- framer.reset() and decoder.reset() are external-unit effects
        (syncBody carrier inp.sync1_match { s with demodState := DemodState.SYNC },
         result, [])
  | DemodState.SYNC =>
      (syncBody carrier inp.sync1_match s, result, [])
  | DemodState.FR_SYNC =>
      if !carrier then
        ({ s with demodState := DemodState.UNLOCKED }, result, [])
      else if inp.sync4_match then
        ({ s with demodState := DemodState.FRAMING }, result, [])
      else if s.sync_count + 1 > 8 then
        ({ s with sync_count := s.sync_count + 1,
                  demodState := DemodState.UNLOCKED,
                  locked_ := false }, result, [])
      else
        ({ s with sync_count := s.sync_count + 1 }, result, [])
  | DemodState.FRAMING =>
      let s := { s with locked_ := true }
      match inp.framer_out with
      | none => (s, result, [])
      | some data =>
          let s := { s with sync_count := 0,
                            demodState := DemodState.FR_SYNC,
                            buffer := data ++ s.buffer.drop data.length,
                            ber := inp.decoder_ber }
          let result := inp.decoder_result
          if !inp.decoder_valid then
            match result with
            | some f => if !s.passall_ then (s, none, [f]) else (s, result, [])
            | none => (s, result, [])
          else (s, result, [])

/-- Per-step outputs of the external stateful units consumed by `demod`:
the deviation corrector (multiplicative factor from the scaled center
sample), the frequency corrector (additive offset from the
deviation-corrected center sample), the phase estimator (over the
corrected 3-sample window), the symbol/EVM slicer, and the slicer's
filtered EVM accessor `symbol_evm.evm()`. -/
structure DemodOracles where
  deviation : ℚ → ℚ
  frequency : ℚ → ℚ
  phase : ℚ × ℚ × ℚ → ℚ
  symbol_evm : ℚ → ℤ × ℚ
  evm_filtered : ℚ → ℚ

/-- One step of `M17Demodulator::demod`: scale the 3-sample window by the
fixed reference factor 20/32768, apply the deviation correction factor to
all three samples, subtract the frequency-offset estimate from all three,
estimate and sign-correct the phase error, update and clamp `dt`, advance
`t`, slice the center sample, and shift the raw sample window. -/
def demod (o : DemodOracles) (s : M17Demodulator) :
    M17Demodulator × DemodResult :=
  let f0 : ℚ := (s.samples.1 : ℚ) * 20 / 32768
  let f1 : ℚ := (s.samples.2.1 : ℚ) * 20 / 32768
  let f2 : ℚ := (s.samples.2.2 : ℚ) * 20 / 32768
  let ed := o.deviation f1
  let g0 := f0 * ed
  let g1 := f1 * ed
  let g2 := f2 * ed
  let ef := o.frequency g1
  let h0 := g0 - ef
  let h1 := g1 - ef
  let h2 := g2 - ef
  let pe0 := o.phase (h0, h1, h2)
  let pe := if h1 < 0 then -pe0 else pe0
  let dt1 := s.ideal_dt - pe * s.gain
  let dt2 := min (max (95/1000) dt1) (105/1000)
  let se := o.symbol_evm h1
  ({ s with f_samples := (h0, h1, h2),
            estimated_deviation := ed,
            estimated_frequency_offset := ef,
            dt := dt2,
            t := s.t + dt2,
            evm_average := o.evm_filtered h1,
            samples := (s.samples.2.2, s.samples.2.1, s.samples.2.2) },
   (h1, pe, se.1, se.2))

/-- The member `M17Demodulator::stop`.  The loopback/ADC shutdown calls act on
external hardware units; on the demodulator state the call clears the
locked flag. -/
def stop (s : M17Demodulator) : M17Demodulator :=
  { s with locked_ := false }

/-- The query `M17Demodulator::locked`: returns the stored flag. -/
def locked (s : M17Demodulator) : Bool :=
  s.locked_

/-- The setter `M17Demodulator::passall`: stores the pass-all flag. -/
def passall (enabled : Bool) (s : M17Demodulator) : M17Demodulator :=
  { s with passall_ := enabled }

/-- Outcome of the free function `hdlc::acquire`: either an `IoFrame*`
returned to the caller, or an invocation of the process-wide error
handler. -/
inductive AcquireOutcome
  | frame (f : ℕ)
  | fatalError
  deriving DecidableEq, Repr

/-- The free function `hdlc::acquire`.  Modelled from the spec: the bodies
of `IoFramePool::acquire` and of `CxxErrorHandler` are not among these
sources, so the pool's answer is taken as an input (`none` = nullptr on
exhaustion) and, per the spec's error-handling design, `CxxErrorHandler`
is the fatal, unrecoverable process-wide error handler, so invoking it
ends the call without returning a value to the caller. -/
def acquire (poolResult : Option ℕ) : AcquireOutcome :=
  match poolResult with
  | none => AcquireOutcome.fatalError
  | some f => AcquireOutcome.frame f

/-- Folding `frame` over a list of per-step external-unit outputs,
threading only the demodulator state (the `FR_SYNC` path neither reads
nor writes the frame reference). -/
def frameIter (din : DemodResult) (res : Option ℕ)
    (inps : List FrameInputs) (s : M17Demodulator) : M17Demodulator :=
  inps.foldl (fun st i => (frame din i res st).1) s

/-- C1: for every call to the free function acquire(), either a non-null
frame handle is returned to the caller or the process-wide error handler
is invoked on pool exhaustion; acquire never returns a null result and
has no degraded path. -/
theorem acquire_returns_frame_or_fatal (p : Option ℕ) :
    (∃ f, p = some f ∧ acquire p = AcquireOutcome.frame f) ∨
    (p = none ∧ acquire p = AcquireOutcome.fatalError) := by
  cases p with
  | none => exact Or.inr ⟨rfl, rfl⟩
  | some f => exact Or.inl ⟨f, rfl, rfl⟩

/-- C2: after every execution of demod(), for every input sample window
and every prior demodulator state, the symbol-timing offset dt lies in
the clamp band [0.095, 0.105]. -/
theorem demod_dt_in_clamp_band (o : DemodOracles) (s : M17Demodulator) :
    95/1000 ≤ ((demod o s).1).dt ∧ ((demod o s).1).dt ≤ 105/1000 := by
  unfold demod
  refine ⟨le_min (le_max_left _ _) (by norm_num), min_le_right _ _⟩

/-- C9: after any call to stop(), the locked() query returns false,
whatever the prior state was. -/
theorem stop_clears_locked (s : M17Demodulator) : locked (stop s) = false :=
  rfl

/-- C10: passall(enabled) sets only the pass-all flag; the state-machine
state, the locked flag, the timing offset dt, the sync-loss counter, and
every running estimator and bookkeeping value are unchanged. -/
theorem passall_only_sets_flag (e : Bool) (s : M17Demodulator) :
    (passall e s).passall_ = e ∧
    (passall e s).demodState = s.demodState ∧
    (passall e s).locked_ = s.locked_ ∧
    (passall e s).dt = s.dt ∧
    (passall e s).sync_count = s.sync_count ∧
    (passall e s).gain = s.gain ∧
    (passall e s).t = s.t ∧
    (passall e s).ideal_dt = s.ideal_dt ∧
    (passall e s).estimated_deviation = s.estimated_deviation ∧
    (passall e s).estimated_frequency_offset = s.estimated_frequency_offset ∧
    (passall e s).evm_average = s.evm_average ∧
    (passall e s).samples = s.samples ∧
    (passall e s).f_samples = s.f_samples ∧
    (passall e s).buffer = s.buffer ∧
    (passall e s).ber = s.ber ∧
    (passall e s).sample_now = s.sample_now ∧
    (passall e s).decoding = s.decoding :=
  ⟨rfl, rfl, rfl, rfl, rfl, rfl, rfl, rfl, rfl, rfl, rfl, rfl, rfl, rfl,
   rfl, rfl, rfl⟩

/-- C7: in every execution of demod(), each of the three window samples
ends up equal to the ADC value scaled by 20/32768, multiplied by the
deviation factor computed from the scaled center sample, minus the
frequency offset computed from the deviation-corrected center sample:
deviation correction is applied to all three samples strictly before
frequency correction. -/
theorem demod_correction_order (o : DemodOracles) (s : M17Demodulator) :
    ((demod o s).1).estimated_deviation =
        o.deviation ((s.samples.2.1 : ℚ) * 20 / 32768) ∧
    ((demod o s).1).estimated_frequency_offset =
        o.frequency (((s.samples.2.1 : ℚ) * 20 / 32768) *
          o.deviation ((s.samples.2.1 : ℚ) * 20 / 32768)) ∧
    ((demod o s).1).f_samples =
      (((s.samples.1 : ℚ) * 20 / 32768) *
          o.deviation ((s.samples.2.1 : ℚ) * 20 / 32768) -
        o.frequency (((s.samples.2.1 : ℚ) * 20 / 32768) *
          o.deviation ((s.samples.2.1 : ℚ) * 20 / 32768)),
       ((s.samples.2.1 : ℚ) * 20 / 32768) *
          o.deviation ((s.samples.2.1 : ℚ) * 20 / 32768) -
        o.frequency (((s.samples.2.1 : ℚ) * 20 / 32768) *
          o.deviation ((s.samples.2.1 : ℚ) * 20 / 32768)),
       ((s.samples.2.2 : ℚ) * 20 / 32768) *
          o.deviation ((s.samples.2.1 : ℚ) * 20 / 32768) -
        o.frequency (((s.samples.2.1 : ℚ) * 20 / 32768) *
          o.deviation ((s.samples.2.1 : ℚ) * 20 / 32768))) :=
  ⟨rfl, rfl, rfl⟩

/-- C8: every frame() step selects the PLL loop gain directly from the
carrier detector's current locked output (0.002 when locked, 0.01 when
unlocked), and demod() flips the sign of the phase-error estimate exactly
when the corrected center sample is negative before multiplying it by the
gain and clamping. -/
theorem pll_gain_selection_and_sign (din : DemodResult) (inp : FrameInputs)
    (res : Option ℕ) (s : M17Demodulator) (o : DemodOracles)
    (s2 : M17Demodulator) :
    ((frame din inp res s).1).gain =
      (if inp.locked then (2/1000 : ℚ) else 1/100) ∧
    ((demod o s2).1).dt =
      min (max (95/1000)
        (s2.ideal_dt -
          (if ((s2.samples.2.1 : ℚ) * 20 / 32768) *
                o.deviation ((s2.samples.2.1 : ℚ) * 20 / 32768) -
              o.frequency (((s2.samples.2.1 : ℚ) * 20 / 32768) *
                o.deviation ((s2.samples.2.1 : ℚ) * 20 / 32768)) < 0 then
            -(o.phase (((demod o s2).1).f_samples))
          else
            o.phase (((demod o s2).1).f_samples)) * s2.gain)) (105/1000) := by
  constructor
  · unfold frame
    cases h : s.demodState <;> simp only [h]
    · split
      · rfl
      · unfold syncBody
        split
        · rfl
        · split <;> rfl
    · unfold syncBody
      split
      · rfl
      · split <;> rfl
    · split
      · rfl
      · split
        · rfl
        · split <;> rfl
    · cases hf : inp.framer_out with
      | none => rfl
      | some data =>
          simp only
          split
          · split <;> split <;> rfl
          · rfl
  · rfl

/-- A demod result used only to drive concrete frame() steps. -/
def cxDin : DemodResult := ((0 : ℚ), (0 : ℚ), (0 : ℤ), (0 : ℚ))

/-- Carrier locked, short correlator matching: drives UNLOCKED → FRAMING
in a single step through the fall-through into the SYNC case. -/
def cxInputsA : FrameInputs where
  locked := true
  evma := 0
  sync1_match := true
  sync4_match := false
  framer_out := none
  decoder_valid := true
  decoder_result := none
  decoder_ber := 0

/-- Carrier locked, framer completing a frame that the decoder accepts. -/
def cxInputsB : FrameInputs :=
  { cxInputsA with sync1_match := false,
                   framer_out := some (List.replicate 368 0),
                   decoder_result := some 1 }

/-- Carrier dropped. -/
def cxInputsC : FrameInputs :=
  { cxInputsA with locked := false, sync1_match := false }

/-- State reached from the initial state after one frame() step with
carrier lock and a short-correlator match: FRAMING. -/
def cxState1 : M17Demodulator := (frame cxDin cxInputsA none initState).1

/-- State reached after the FRAMING step completes and decodes a frame:
FR_SYNC, with the locked latch set. -/
def cxState2 : M17Demodulator := (frame cxDin cxInputsB none cxState1).1

/-- State reached from cxState2 when the carrier drops in FR_SYNC. -/
def cxState3 : M17Demodulator := (frame cxDin cxInputsC none cxState2).1

/-- C3 counterexample: a state reachable from the initial state in two
frame() steps is in FR_SYNC (not FRAMING) while locked() still returns
true, refuting that locked() is true only in FRAMING with carrier lock. -/
theorem locked_outside_framing_cx :
    cxState2.demodState = DemodState.FR_SYNC ∧ locked cxState2 = true := by
  constructor <;> rfl

/-- C3 (amended): locked() returns a stored latch, characterized per
frame() step by the state the step ran in: a FRAMING step sets it, an
UNLOCKED step without carrier clears it, the FR_SYNC sync-loss timeout
clears it, and every other step leaves it unchanged — so locked() can
stay true in FR_SYNC (and can be false in FRAMING until its first step
runs), rather than tracking FRAMING-with-carrier directly. -/
theorem locked_latch_characterization (din : DemodResult) (inp : FrameInputs)
    (res : Option ℕ) (s : M17Demodulator) :
    locked ((frame din inp res s).1) =
      (match s.demodState with
       | DemodState.UNLOCKED => if inp.locked then s.locked_ else false
       | DemodState.SYNC => s.locked_
       | DemodState.FR_SYNC =>
           if inp.locked = true ∧ inp.sync4_match = false ∧
               8 < s.sync_count + 1 then false
           else s.locked_
       | DemodState.FRAMING => true) := by
  unfold frame locked
  cases h : s.demodState <;> simp only [h]
  · cases hl : inp.locked <;> simp [syncBody, hl]
    split <;> rfl
  · cases hl : inp.locked <;> simp [syncBody, hl]
    split <;> rfl
  · cases hl : inp.locked <;> simp [hl]
    cases hm : inp.sync4_match <;> simp [hm]
    split <;> rename_i hc
    · simp [hc]
    · simp at hc
      simp [hc]
  · cases hf : inp.framer_out with
    | none => rfl
    | some data =>
        simp only
        split
        · split
          · split <;> rfl
          · rfl
        · rfl

/-- C4 counterexample: from the reachable state cxState2 (FR_SYNC with
the locked latch set), a carrier drop transitions to UNLOCKED in that
step while locked() still returns true afterwards, refuting that the
flag is driven false on every transition back to UNLOCKED. -/
theorem unlocked_entry_keeps_locked_cx :
    cxState3.demodState = DemodState.UNLOCKED ∧ locked cxState3 = true := by
  constructor <;> rfl

/-- Carrier locked, no correlator match: drives the FR_SYNC sync-loss
counter. -/
def cxInputsD : FrameInputs := { cxInputsA with sync1_match := false }

/-- A state at the FR_SYNC timeout threshold: eight unmatched symbol
periods already counted. -/
def cxTimeoutState : M17Demodulator :=
  { initState with demodState := DemodState.FR_SYNC, locked_ := true,
                   sync_count := 8 }

/-- C4 (amended): of the transitions into UNLOCKED, only the FR_SYNC
sync-loss timeout drives the locked flag false in the same step; the
carrier-drop transitions from FR_SYNC and from SYNC enter UNLOCKED with
the flag unchanged, and the flag is then cleared on a subsequent step
processed in UNLOCKED while the carrier is still down. -/
theorem unlocked_entry_locked_flag (din : DemodResult) (inp : FrameInputs)
    (res : Option ℕ) (s : M17Demodulator) :
    (s.demodState = DemodState.FR_SYNC → inp.locked = true →
      inp.sync4_match = false → 8 < s.sync_count + 1 →
      ((frame din inp res s).1).demodState = DemodState.UNLOCKED ∧
      locked ((frame din inp res s).1) = false) ∧
    (s.demodState = DemodState.FR_SYNC → inp.locked = false →
      ((frame din inp res s).1).demodState = DemodState.UNLOCKED ∧
      locked ((frame din inp res s).1) = s.locked_) ∧
    (s.demodState = DemodState.SYNC → inp.locked = false →
      ((frame din inp res s).1).demodState = DemodState.UNLOCKED ∧
      locked ((frame din inp res s).1) = s.locked_) ∧
    (s.demodState = DemodState.UNLOCKED → inp.locked = false →
      locked ((frame din inp res s).1) = false) := by
  refine ⟨?_, ?_, ?_, ?_⟩
  · intro hs hl hm hc
    unfold frame locked
    simp [hs, hl, hm, hc]
  · intro hs hl
    unfold frame locked
    simp [hs, hl]
  · intro hs hl
    unfold frame locked syncBody
    simp [hs, hl]
  · intro hs hl
    unfold frame locked
    simp [hs, hl]

/-- C4 witness: the timeout transition at a concrete threshold state
clears the flag, and a concrete carrier-drop transition from FR_SYNC
leaves the flag as it was. -/
theorem unlocked_entry_locked_flag_witness :
    (((frame cxDin cxInputsD none cxTimeoutState).1).demodState =
        DemodState.UNLOCKED ∧
      locked ((frame cxDin cxInputsD none cxTimeoutState).1) = false) ∧
    (((frame cxDin cxInputsC none cxState2).1).demodState =
        DemodState.UNLOCKED ∧
      locked ((frame cxDin cxInputsC none cxState2).1) = cxState2.locked_) :=
  ⟨(unlocked_entry_locked_flag cxDin cxInputsD none cxTimeoutState).1
      rfl rfl rfl (by decide),
   (unlocked_entry_locked_flag cxDin cxInputsC none cxState2).2.1 rfl rfl⟩

/-- State at entry to FR_SYNC: sync-loss counter reset to 0, locked
latch set by the preceding FRAMING step. -/
def cxFRSyncEntry : M17Demodulator :=
  { initState with demodState := DemodState.FR_SYNC, locked_ := true,
                   sync_count := 0 }

/-- C5 counterexample: starting at FR_SYNC entry (counter 0), after 8
consecutive symbol periods with carrier lock held and no long-correlator
match, the machine is still in FR_SYNC with the locked flag still set —
the return to UNLOCKED only happens on the 9th such period. -/
theorem fr_sync_eight_periods_cx :
    (frameIter cxDin none (List.replicate 8 cxInputsD) cxFRSyncEntry).demodState =
        DemodState.FR_SYNC ∧
    locked (frameIter cxDin none (List.replicate 8 cxInputsD) cxFRSyncEntry) =
        true := by
  constructor <;> rfl

theorem frameIter_nil (din : DemodResult) (res : Option ℕ)
    (s : M17Demodulator) : frameIter din res [] s = s :=
  rfl

theorem frameIter_cons (din : DemodResult) (res : Option ℕ)
    (i : FrameInputs) (rest : List FrameInputs) (s : M17Demodulator) :
    frameIter din res (i :: rest) s =
      frameIter din res rest ((frame din i res s).1) :=
  rfl

theorem frameIter_append (din : DemodResult) (res : Option ℕ)
    (l₁ l₂ : List FrameInputs) (s : M17Demodulator) :
    frameIter din res (l₁ ++ l₂) s =
      frameIter din res l₂ (frameIter din res l₁ s) := by
  simp [frameIter, List.foldl_append]

/-- While the sync-loss counter stays at 8 or below, carrier-locked
unmatched periods keep the machine in FR_SYNC, increment the counter
once per period, and leave the locked latch unchanged. -/
theorem frameIter_fr_sync_stays (din : DemodResult) (res : Option ℕ)
    (inps : List FrameInputs) :
    ∀ s : M17Demodulator,
      s.demodState = DemodState.FR_SYNC →
      (∀ i ∈ inps, i.locked = true ∧ i.sync4_match = false) →
      s.sync_count + inps.length ≤ 8 →
      (frameIter din res inps s).demodState = DemodState.FR_SYNC ∧
      (frameIter din res inps s).sync_count = s.sync_count + inps.length ∧
      (frameIter din res inps s).locked_ = s.locked_ := by
  induction inps with
  | nil =>
      intro s hs _ _
      exact ⟨by simpa [frameIter] using hs, by simp [frameIter], rfl⟩
  | cons i rest ih =>
      intro s hs hgood hle
      have hi := hgood i (List.mem_cons_self i rest)
      have hrest : ∀ j ∈ rest, j.locked = true ∧ j.sync4_match = false :=
        fun j hj => hgood j (List.mem_cons_of_mem i hj)
      have hnot : ¬ (8 : ℤ) < s.sync_count + 1 := by
        simp only [List.length_cons] at hle
        push_cast at hle ⊢
        omega
      have h1 : ((frame din i res s).1).demodState = DemodState.FR_SYNC := by
        unfold frame
        simp [hs, hi.1, hi.2, hnot]
      have h2 : ((frame din i res s).1).sync_count = s.sync_count + 1 := by
        unfold frame
        simp [hs, hi.1, hi.2, hnot]
      have h3 : ((frame din i res s).1).locked_ = s.locked_ := by
        unfold frame
        simp [hs, hi.1, hi.2, hnot]
      rw [frameIter_cons]
      have hle2 : ((frame din i res s).1).sync_count + (rest.length : ℤ) ≤ 8 := by
        rw [h2]
        simp only [List.length_cons] at hle
        push_cast at hle ⊢
        omega
      obtain ⟨g1, g2, g3⟩ := ih ((frame din i res s).1) h1 hrest hle2
      refine ⟨g1, ?_, g3.trans h3⟩
      rw [g2, h2]
      simp only [List.length_cons]
      push_cast
      ring

/-- C5 (amended): from entry to FR_SYNC (sync-loss counter 0), with
carrier lock held and no long-correlator match, the machine stays in
FR_SYNC for 8 symbol periods and returns to UNLOCKED with the locked
flag cleared on the 9th consecutive unmatched period, when the counter
exceeds 8. -/
theorem fr_sync_timeout_after_nine (din : DemodResult) (res : Option ℕ)
    (inps : List FrameInputs) (s : M17Demodulator)
    (hs : s.demodState = DemodState.FR_SYNC) (hc : s.sync_count = 0)
    (hlen : inps.length = 9)
    (hgood : ∀ i ∈ inps, i.locked = true ∧ i.sync4_match = false) :
    (frameIter din res inps s).demodState = DemodState.UNLOCKED ∧
    locked (frameIter din res inps s) = false := by
  have hsplit : inps.take 8 ++ inps.drop 8 = inps := List.take_append_drop 8 inps
  have hdlen : (inps.drop 8).length = 1 := by simp [hlen]
  obtain ⟨a, ha⟩ := List.length_eq_one.mp hdlen
  have hmemtake : ∀ i ∈ inps.take 8, i.locked = true ∧ i.sync4_match = false :=
    fun i hi => hgood i ((List.take_sublist 8 inps).subset hi)
  have htake8 : (inps.take 8).length = 8 := by simp [hlen]
  have h8 := frameIter_fr_sync_stays din res (inps.take 8) s hs hmemtake
    (by rw [htake8, hc]; norm_num)
  have hagood : a.locked = true ∧ a.sync4_match = false := by
    refine hgood a ((List.drop_sublist 8 inps).subset ?_)
    simp [ha]
  have hiter : frameIter din res inps s =
      (frame din a res (frameIter din res (inps.take 8) s)).1 := by
    conv_lhs => rw [← hsplit, ha]
    rw [frameIter_append, frameIter_cons, frameIter_nil]
  have hcount : (frameIter din res (inps.take 8) s).sync_count = 8 := by
    rw [h8.2.1, hc, htake8]
    norm_num
  have hgt : (8 : ℤ) < (frameIter din res (inps.take 8) s).sync_count + 1 := by
    rw [hcount]
    norm_num
  rw [hiter]
  constructor
  · unfold frame
    simp [h8.1, hagood.1, hagood.2, hgt]
  · unfold frame locked
    simp [h8.1, hagood.1, hagood.2, hgt]

/-- C5 witness: from the concrete FR_SYNC entry state, nine concrete
carrier-locked unmatched periods end in UNLOCKED with locked() false. -/
theorem fr_sync_timeout_after_nine_witness :
    (frameIter cxDin none (List.replicate 9 cxInputsD) cxFRSyncEntry).demodState =
        DemodState.UNLOCKED ∧
    locked (frameIter cxDin none (List.replicate 9 cxInputsD) cxFRSyncEntry) =
        false :=
  fr_sync_timeout_after_nine cxDin none (List.replicate 9 cxInputsD)
    cxFRSyncEntry rfl rfl (by simp)
    (fun i hi => by
      rw [List.eq_of_mem_replicate hi]
      exact ⟨rfl, rfl⟩)

/-- A state processed in FRAMING. -/
def cxFramingState : M17Demodulator :=
  { initState with demodState := DemodState.FRAMING }

/-- Carrier locked, framer completing a frame that the decoder rejects,
with the decoder producing a frame object. -/
def cxInputsE : FrameInputs :=
  { cxInputsA with sync1_match := false,
                   framer_out := some (List.replicate 368 0),
                   decoder_valid := false,
                   decoder_result := some 5 }

/-- C6: when a complete frame is decoded in FRAMING, an invalid decode
with pass-all disabled releases the produced frame back to the pool and
hands the caller a null result, while a valid decode — or an invalid one
with pass-all enabled — emits the produced frame pointer to the caller
and releases nothing. -/
theorem framing_emission (din : DemodResult) (inp : FrameInputs)
    (res : Option ℕ) (s : M17Demodulator)
    (hs : s.demodState = DemodState.FRAMING)
    (data : List ℤ) (hf : inp.framer_out = some data) :
    ((inp.decoder_valid = false ∧ s.passall_ = false) →
        (frame din inp res s).2.1 = none ∧
        (frame din inp res s).2.2 = inp.decoder_result.toList) ∧
    ((inp.decoder_valid = true ∨ s.passall_ = true) →
        (frame din inp res s).2.1 = inp.decoder_result ∧
        (frame din inp res s).2.2 = []) := by
  unfold frame
  constructor
  · rintro ⟨hv, hp⟩
    cases hr : inp.decoder_result <;> simp [hs, hf, hv, hp, hr]
  · rintro (hv | hp)
    · simp [hs, hf, hv]
    · cases hv : inp.decoder_valid <;>
        cases hr : inp.decoder_result <;> simp [hs, hf, hv, hp, hr]

/-- C6 witness: a concrete invalid decode with pass-all disabled yields a
null result and releases exactly the produced frame. -/
theorem framing_emission_witness :
    (frame cxDin cxInputsE none cxFramingState).2.1 = none ∧
    (frame cxDin cxInputsE none cxFramingState).2.2 =
      cxInputsE.decoder_result.toList :=
  (framing_emission cxDin cxInputsE none cxFramingState rfl
    (List.replicate 368 0) rfl).1 ⟨rfl, rfl⟩

end M17
